import Mathlib

/-!
Shallow embedding of `src/server.js` (Hopkins Concrete form backend):
the `POST /api/quote` handler, its inline validation block, the two
Resend email senders and the CRM webhook forwarder.  Request-body
fields are arbitrary JSON-ish values (`JSVal`); external effects
(Resend, `fetch`) are passed in as explicit outcome values, and the
requests the code would issue are returned as data.
-/

/-- JS values that can arrive in a JSON request-body field; `undef` stands
for a field absent from the body (destructuring yields `undefined`). -/
inductive JSVal where
  | undef
  | null
  | str (s : String)
  | num (n : Int)
  | bool (b : Bool)
deriving DecidableEq, Repr

/-- JS truthiness of a `JSVal` (`!v` is the negation of this). -/
def jsTruthy : JSVal → Bool
  | .undef => false
  | .null => false
  | .str s => s != ""
  | .num n => n != 0
  | .bool b => b

/-- JS `a || b`: the left operand when truthy, otherwise the right. -/
def jsOr (a b : JSVal) : JSVal :=
  if jsTruthy a then a else b

/-- JS string coercion, as applied by template interpolation and by
`RegExp.test` to a non-string argument. -/
def jsToString : JSVal → String
  | .undef => "undefined"
  | .null => "null"
  | .str s => s
  | .num n => toString n
  | .bool b => if b then "true" else "false"

/-- Characters matched by the JS `\s` class (the subset relevant here:
ASCII whitespace, NBSP and the BOM). -/
def jsWhitespace (c : Char) : Bool :=
  c = ' ' || c = '\t' || c = '\n' || c = '\r' || c = '\x0b' || c = '\x0c' ||
    c = ' ' || c = '﻿'

/-- JS `String.prototype.trim`: drop `\s` characters from both ends. -/
def jsTrim (s : String) : String :=
  ⟨((s.data.dropWhile jsWhitespace).reverse.dropWhile jsWhitespace).reverse⟩

/-- JS `phone.replace(/\D/g, "")`: keep only the decimal digits. -/
def stripNonDigits (s : String) : String :=
  ⟨s.data.filter (fun c => c.isDigit)⟩

/-- A character admitted by the `[^\s@]` class of the email regex. -/
def isEmailChar (c : Char) : Bool :=
  !jsWhitespace c && c != '@'

/-- True when the list contains a dot that is not its last element. -/
def dotNotLast : List Char → Bool
  | [] => false
  | [_] => false
  | c :: rest => c == '.' || dotNotLast rest

/-- True when the list has a dot at some index between 1 and length - 2,
i.e. with at least one character on each side. -/
def hasInnerDot : List Char → Bool
  | [] => false
  | _ :: rest => dotNotLast rest

/-- The test `/^[^\s@]+@[^\s@]+\.[^\s@]+$/.test s`: since `[^\s@]`
excludes `@`, a match forces exactly one `@`; the domain part must be
non-empty, free of whitespace and `@`, and contain a dot with at least
one character before it and after it. -/
def emailRegexTest (s : String) : Bool :=
  match s.data.splitOn ('@') with
  | [l, d] =>
    !l.isEmpty && l.all isEmailChar && !d.isEmpty && d.all isEmailChar &&
      hasInnerDot d
  | _ => false

/-- The nine request-body fields destructured from `req.body`. -/
structure Submission where
  name : JSVal
  phone : JSVal
  email : JSVal
  service : JSVal
  address : JSVal
  zipcode : JSVal
  timeline : JSVal
  budget : JSVal
  message : JSVal
deriving DecidableEq, Repr

/-- Environment configuration read from `process.env`; `none` stands for
an unset variable. -/
structure Config where
  resendFromEmail : Option String
  notificationEmail : Option String
  crmWebhookUrl : Option String
  crmApiKey : Option String
  crmFormId : Option String
deriving DecidableEq, Repr

/-- JS truthiness of an environment variable: set and non-empty. -/
def envTruthy : Option String → Bool
  | some s => s != ""
  | none => false

/-- JS `process.env.X || deflt`. -/
def envOr (v : Option String) (deflt : String) : String :=
  match v with
  | some s => if s != "" then s else deflt
  | none => deflt

/-- Line 50: `if (!name || name.trim().length < 2) errors.push("name is required")`.
`name.trim()` on a truthy non-string throws a TypeError, modelled as
`Except.error`. -/
def checkName (v : JSVal) (errors : List String) : Except Unit (List String) :=
  if jsTruthy v then
    match v with
    | .str s =>
      .ok (if (jsTrim s).length < 2 then errors ++ ["name is required"] else errors)
    | _ => .error ()
  else
    .ok (errors ++ ["name is required"])

/-- Line 51: `if (!phone || phone.replace(/\D/g, "").length < 10) errors.push(...)`.
`phone.replace` on a truthy non-string throws a TypeError. -/
def checkPhone (v : JSVal) (errors : List String) : Except Unit (List String) :=
  if jsTruthy v then
    match v with
    | .str s =>
      .ok (if (stripNonDigits s).length < 10 then errors ++ ["valid phone is required"] else errors)
    | _ => .error ()
  else
    .ok (errors ++ ["valid phone is required"])

/-- Line 52: `if (!email || !regex.test(email)) errors.push(...)`; `test`
coerces its argument to a string and never throws. -/
def checkEmail (v : JSVal) (errors : List String) : List String :=
  if jsTruthy v then
    if emailRegexTest (jsToString v) then errors else errors ++ ["valid email is required"]
  else
    errors ++ ["valid email is required"]

/-- Line 53: `if (!service) errors.push("service is required")`. -/
def checkService (v : JSVal) (errors : List String) : List String :=
  if jsTruthy v then errors else errors ++ ["service is required"]

/-- The validation block, lines 49-53: the four checks run in order on a
shared `errors` array; a TypeError from the name or phone check
propagates (to the handler's catch). -/
def validate (r : Submission) : Except Unit (List String) :=
  (checkName r.name []).bind (fun errors =>
    (checkPhone r.phone errors).bind (fun errors =>
      .ok (checkService r.service (checkEmail r.email errors))))

/-- Result value returned by both email senders: `{success, id}` on the
ok path, `{success:false, error}` from the catch. -/
structure EmailResult where
  success : Bool
  id : Option String
  error : Option String
deriving DecidableEq, Repr

/-- The argument the code passes to `resend.emails.send`. -/
structure EmailSendRequest where
  fromEmail : String
  toEmail : List JSVal
  subject : String
  html : String
deriving DecidableEq, Repr

/-- The notification email template of lines 102-132, with the ten
interpolation slots abstracted as string parameters. -/
def htmlTemplate (name phone email service address zipcode timeline budget message timestamp : String) : String :=
  "\n      <div style=\"font-family: Arial, sans-serif; max-width: 600px; margin: 0 auto;\">\n        <div style=\"background-color: #03662b; padding: 20px; text-align: center;\">\n          <h1 style=\"color: #ffffff; margin: 0;\">New Quote Request</h1>\n          <p style=\"color: #c8e6c9; margin: 5px 0 0;\">Hopkins Concrete Contractors</p>\n        </div>\n\n        <div style=\"padding: 24px; background-color: #f9f9f9;\">\n          <h2 style=\"color: #03662b; border-bottom: 2px solid #03662b; padding-bottom: 8px;\">Contact Info</h2>\n          <table style=\"width: 100%; border-collapse: collapse;\">\n            <tr><td style=\"padding: 8px 0; font-weight: bold; width: 120px;\">Name:</td><td>"
    ++ name ++
  "</td></tr>\n            <tr><td style=\"padding: 8px 0; font-weight: bold;\">Phone:</td><td><a href=\"tel:"
    ++ phone ++
  "\">"
    ++ phone ++
  "</a></td></tr>\n            <tr><td style=\"padding: 8px 0; font-weight: bold;\">Email:</td><td><a href=\"mailto:"
    ++ email ++
  "\">"
    ++ email ++
  "</a></td></tr>\n          </table>\n\n          <h2 style=\"color: #03662b; border-bottom: 2px solid #03662b; padding-bottom: 8px; margin-top: 24px;\">Project Details</h2>\n          <table style=\"width: 100%; border-collapse: collapse;\">\n            <tr><td style=\"padding: 8px 0; font-weight: bold; width: 120px;\">Service:</td><td>"
    ++ service ++
  "</td></tr>\n            <tr><td style=\"padding: 8px 0; font-weight: bold;\">Address:</td><td>"
    ++ address ++
  "</td></tr>\n            <tr><td style=\"padding: 8px 0; font-weight: bold;\">Zip Code:</td><td>"
    ++ zipcode ++
  "</td></tr>\n            <tr><td style=\"padding: 8px 0; font-weight: bold;\">Timeline:</td><td>"
    ++ timeline ++
  "</td></tr>\n            <tr><td style=\"padding: 8px 0; font-weight: bold;\">Budget:</td><td>"
    ++ budget ++
  "</td></tr>\n          </table>\n\n          <h2 style=\"color: #03662b; border-bottom: 2px solid #03662b; padding-bottom: 8px; margin-top: 24px;\">Message</h2>\n          <p style=\"background: #fff; padding: 16px; border-radius: 6px; border: 1px solid #ddd;\">"
    ++ message ++
  "</p>\n\n          <p style=\"color: #888; font-size: 12px; margin-top: 24px;\">Submitted at "
    ++ timestamp ++
  "</p>\n        </div>\n      </div>\n    "

/-- The HTML body built by `sendNotificationEmail`: each `${...}` slot as
written on lines 112-129, with `||` defaults for the optional fields. -/
def notificationHtml (d : Submission) (ts : String) : String :=
  htmlTemplate (jsToString d.name) (jsToString d.phone) (jsToString d.email)
    (jsToString d.service)
    (jsToString (jsOr d.address (.str ("Not provided"))))
    (jsToString (jsOr d.zipcode (.str ("Not provided"))))
    (jsToString (jsOr d.timeline (.str ("Not specified"))))
    (jsToString (jsOr d.budget (.str ("Not specified"))))
    (jsToString (jsOr d.message (.str ("No message provided"))))
    ts

/-- The function `sendNotificationEmail`, lines 97-147: builds a send
request; the Resend call outcome is passed in as `send` (an id option on
success, the thrown message on failure); the catch converts a throw into
`{success:false, error}`. -/
def sendNotificationEmail (cfg : Config) (d : Submission) (ts : String)
    (send : Except String (Option String)) : EmailSendRequest × EmailResult :=
  let req : EmailSendRequest :=
    ⟨envOr cfg.resendFromEmail ("Hopkins Concrete <noreply@webleadsnow.com>"),
     [.str (envOr cfg.notificationEmail ("info@hopkinsconcretecontractors.com"))],
     "🏗️ New Quote Request — " ++ jsToString d.service ++ " — " ++ jsToString d.name,
     notificationHtml d ts⟩
  match send with
  | .ok oid => (req, ⟨true, oid, none⟩)
  | .error m => (req, ⟨false, none, some m⟩)

/-- The confirmation email body of lines 156-167. -/
def confirmationHtml (name service : JSVal) : String :=
  "\n      <div style=\"font-family: Arial, sans-serif; max-width: 600px; margin: 0 auto;\">\n        <div style=\"background-color: #03662b; padding: 20px; text-align: center;\">\n          <h1 style=\"color: #ffffff; margin: 0;\">Thank You, "
    ++ jsToString name ++
  "!</h1>\n        </div>\n        <div style=\"padding: 24px;\">\n          <p>We received your request for <strong>"
    ++ jsToString service ++
  "</strong> and our team will be in touch within 24 hours with a free estimate.</p>\n          <p>If you need immediate help, call us at <a href=\"tel:6124733196\" style=\"color: #03662b; font-weight: bold;\">612-473-3196</a>.</p>\n          <p style=\"margin-top: 24px;\">— The Hopkins Concrete Team</p>\n        </div>\n      </div>\n    "

/-- The function `sendConfirmationEmail`, lines 152-182: same contract as
the notification sender, addressed to the submitter. -/
def sendConfirmationEmail (cfg : Config) (name email service : JSVal)
    (send : Except String (Option String)) : EmailSendRequest × EmailResult :=
  let req : EmailSendRequest :=
    ⟨envOr cfg.resendFromEmail ("Hopkins Concrete <noreply@webleadsnow.com>"),
     [email],
     "We received your quote request — Hopkins Concrete",
     confirmationHtml name service⟩
  match send with
  | .ok oid => (req, ⟨true, oid, none⟩)
  | .error m => (req, ⟨false, none, some m⟩)

/-- Outcome of the `fetch` to the CRM webhook: `ok` is `response.ok`,
`status` is `response.status`. -/
structure HttpResponse where
  ok : Bool
  status : Nat
deriving DecidableEq, Repr

/-- The HTTP request `pushToCRM` would issue. -/
structure HttpRequest where
  url : String
  method : String
  headers : List (String × String)
  body : List (String × JSVal)
deriving DecidableEq, Repr

/-- Result value of `pushToCRM`: `{success, status}` after a response,
`{success:false, error}` from the guard or the catch. -/
structure CRMResult where
  success : Bool
  status : Option Nat
  error : Option String
deriving DecidableEq, Repr

/-- The flat payload of lines 195-209, in source order; `zipcode` is sent
under the key `zip_code` and the optional fields default to `""`. -/
def crmPayload (cfg : Config) (d : Submission) (ts : String) : List (String × JSVal) :=
  [("form_id", .str (envOr cfg.crmFormId ("hopkins-concrete-quote"))),
   ("source", .str ("website")),
   ("name", d.name),
   ("email", d.email),
   ("phone", d.phone),
   ("zip_code", jsOr d.zipcode (.str (""))),
   ("service", d.service),
   ("address", jsOr d.address (.str (""))),
   ("timeline", jsOr d.timeline (.str (""))),
   ("budget", jsOr d.budget (.str (""))),
   ("message", jsOr d.message (.str (""))),
   ("submitted_at", .str ts),
   ("source_url", .str ("https://hopkinsconcretecontractors.com/contact-2/"))]

/-- Headers of lines 211-218: always `Content-Type`, plus `X-API-Key`
when `CRM_API_KEY` is set (truthy). -/
def crmHeaders (cfg : Config) : List (String × String) :=
  ("Content-Type", "application/json") ::
    (if envTruthy cfg.crmApiKey then [("X-API-Key", Option.getD cfg.crmApiKey (""))] else [])

/-- The function `pushToCRM`, lines 187-234: skip with a failure result
when `CRM_WEBHOOK_URL` is unset; otherwise POST the payload and report
`response.ok` / `response.status`, converting a thrown fetch error into
`{success:false, error}`.  The first component is the request issued
(`none` when no network call is made). -/
def pushToCRM (cfg : Config) (d : Submission) (ts : String)
    (resp : Except String HttpResponse) : Option HttpRequest × CRMResult :=
  if envTruthy cfg.crmWebhookUrl then
    let req : HttpRequest :=
      ⟨Option.getD cfg.crmWebhookUrl (""), "POST", crmHeaders cfg, crmPayload cfg d ts⟩
    match resp with
    | .ok hr => (some req, ⟨hr.ok, some hr.status, none⟩)
    | .error m => (some req, ⟨false, none, some m⟩)
  else
    (none, ⟨false, none, some ("CRM_WEBHOOK_URL not configured")⟩)

/-- The `details` object of the 200 response body, lines 79-83. -/
structure QuoteDetails where
  email_sent : Bool
  crm_pushed : Bool
  confirmation_sent : Bool
deriving DecidableEq, Repr

/-- The HTTP responses the quote handler can produce. -/
inductive Response where
  | accepted (message : String) (details : QuoteDetails)
  | badRequest (errors : List String)
  | serverError (message : String)
deriving DecidableEq, Repr

/-- HTTP status code of each response shape (200 / 400 / 500). -/
def statusCode : Response → Nat
  | .accepted _ _ => 200
  | .badRequest _ => 400
  | .serverError _ => 500

/-- The `success` flag of each response body. -/
def responseSuccess : Response → Bool
  | .accepted _ _ => true
  | .badRequest _ => false
  | .serverError _ => false

/-- The three downstream senders, in the order the handler calls them. -/
inductive Sender where
  | notification
  | crm
  | confirmation
deriving DecidableEq, Repr

/-- Outcomes of the external calls the handler awaits: the two Resend
sends and the CRM fetch. -/
structure World where
  notif : Except String (Option String)
  crm : Except String HttpResponse
  conf : Except String (Option String)

/-- Result of one handler run: the response sent, and which senders were
invoked. -/
structure HandlerOutcome where
  response : Response
  invoked : List Sender
deriving DecidableEq, Repr

/-- The `POST /api/quote` handler, lines 44-92: validate (a TypeError
escaping the validation block reaches the catch and yields the 500
response); respond 400 with the error list when non-empty; otherwise run
the three senders in order — none can throw — and respond 200 with the
three success booleans as `(email_sent, crm_pushed, confirmation_sent)`. -/
def handleQuote (cfg : Config) (r : Submission) (ts : String) (w : World) : HandlerOutcome :=
  match validate r with
  | .error _ =>
    ⟨.serverError ("Something went wrong. Please try again or call us directly."), []⟩
  | .ok errors =>
    if errors.length > 0 then
      ⟨.badRequest errors, []⟩
    else
      let emailResult := (sendNotificationEmail cfg r ts w.notif).2
      let crmResult := (pushToCRM cfg r ts w.crm).2
      let confirmResult := (sendConfirmationEmail cfg r.name r.email r.service w.conf).2
      ⟨.accepted ("Quote request submitted successfully")
          ⟨emailResult.success, crmResult.success, confirmResult.success⟩,
       [.notification, .crm, .confirmation]⟩

/-- Spec reading of validation rule 1: the name rule fails on a falsy
value or a string of trimmed length below 2.  (On a truthy non-string
the code throws instead; the value here is unused in that case.) -/
def nameRuleFails : JSVal → Bool
  | .str s => decide ((jsTrim s).length < 2)
  | v => !jsTruthy v

/-- Spec reading of validation rule 2: the phone rule fails on a falsy
value or a string with fewer than 10 digits. -/
def phoneRuleFails : JSVal → Bool
  | .str s => decide ((stripNonDigits s).length < 10)
  | v => !jsTruthy v

/-- Spec reading of validation rule 3: the email rule fails on a falsy
value or one whose string coercion fails the regex. -/
def emailRuleFails (v : JSVal) : Bool :=
  !jsTruthy v || !emailRegexTest (jsToString v)

/-- Spec reading of validation rule 4: the service rule fails on a falsy
value. -/
def serviceRuleFails (v : JSVal) : Bool :=
  !jsTruthy v

/-- The error list the spec describes: one fixed message per failing
rule, in the fixed name-phone-email-service order. -/
def ruleErrors (r : Submission) : List String :=
  (if nameRuleFails r.name then ["name is required"] else [])
    ++ (if phoneRuleFails r.phone then ["valid phone is required"] else [])
    ++ (if emailRuleFails r.email then ["valid email is required"] else [])
    ++ (if serviceRuleFails r.service then ["service is required"] else [])

/-- A value on which `.trim()` / `.replace()` cannot be reached or is a
string method: falsy, or an actual string. -/
def strOk (v : JSVal) : Prop :=
  jsTruthy v = false ∨ ∃ s, v = .str s

theorem jsTruthy_str_eq_false {s : String} (h : jsTruthy (.str s) = false) : s = "" := by
  simpa [jsTruthy] using h

theorem nameRuleFails_of_falsy {v : JSVal} (h : jsTruthy v = false) :
    nameRuleFails v = true := by
  cases v with
  | str s =>
    have hs : s = "" := jsTruthy_str_eq_false h
    subst hs
    decide
  | undef => rfl
  | null => rfl
  | num n => simp [nameRuleFails, h]
  | bool b => simp [nameRuleFails, h]

theorem phoneRuleFails_of_falsy {v : JSVal} (h : jsTruthy v = false) :
    phoneRuleFails v = true := by
  cases v with
  | str s =>
    have hs : s = "" := jsTruthy_str_eq_false h
    subst hs
    decide
  | undef => rfl
  | null => rfl
  | num n => simp [phoneRuleFails, h]
  | bool b => simp [phoneRuleFails, h]

theorem checkName_eq (v : JSVal) (h : strOk v) (errors : List String) :
    checkName v errors =
      .ok (errors ++ (if nameRuleFails v then ["name is required"] else [])) := by
  by_cases hT : jsTruthy v = true
  · rcases h with h | ⟨s, rfl⟩
    · rw [hT] at h; cases h
    · simp only [checkName, hT, if_true, nameRuleFails]
      split <;> simp_all
  · have hF : jsTruthy v = false := by simpa using hT
    rw [nameRuleFails_of_falsy hF]
    simp [checkName, hF]

theorem checkPhone_eq (v : JSVal) (h : strOk v) (errors : List String) :
    checkPhone v errors =
      .ok (errors ++ (if phoneRuleFails v then ["valid phone is required"] else [])) := by
  by_cases hT : jsTruthy v = true
  · rcases h with h | ⟨s, rfl⟩
    · rw [hT] at h; cases h
    · simp only [checkPhone, hT, if_true, phoneRuleFails]
      split <;> simp_all
  · have hF : jsTruthy v = false := by simpa using hT
    rw [phoneRuleFails_of_falsy hF]
    simp [checkPhone, hF]

theorem checkEmail_eq (v : JSVal) (errors : List String) :
    checkEmail v errors =
      errors ++ (if emailRuleFails v then ["valid email is required"] else []) := by
  by_cases hT : jsTruthy v = true <;>
    by_cases hE : emailRegexTest (jsToString v) = true <;>
      simp [checkEmail, emailRuleFails, hT, hE]

theorem checkService_eq (v : JSVal) (errors : List String) :
    checkService v errors =
      errors ++ (if serviceRuleFails v then ["service is required"] else []) := by
  by_cases hT : jsTruthy v = true <;> simp [checkService, serviceRuleFails, hT]

theorem validate_ok (r : Submission) (h1 : strOk r.name) (h2 : strOk r.phone) :
    validate r = .ok (ruleErrors r) := by
  rw [validate, checkName_eq r.name h1]
  simp only [Except.bind]
  rw [checkPhone_eq r.phone h2]
  simp only [Except.bind]
  rw [checkEmail_eq, checkService_eq, ruleErrors]
  simp [List.append_assoc]

theorem checkName_throw (v : JSVal) (hT : jsTruthy v = true)
    (hS : ∀ s, v ≠ .str s) (errors : List String) :
    checkName v errors = .error () := by
  cases v with
  | str s => exact absurd rfl (hS s)
  | undef => cases hT
  | null => cases hT
  | num n => simp [checkName, hT]
  | bool b => simp [checkName, hT]

theorem checkName_ok_strOk {v : JSVal} {errors l : List String}
    (h : checkName v errors = .ok l) : strOk v := by
  by_cases hT : jsTruthy v = true
  · cases hs : v with
    | str s => exact Or.inr ⟨s, rfl⟩
    | undef => rw [hs] at hT; cases hT
    | null => rw [hs] at hT; cases hT
    | num n => rw [hs] at hT h; rw [checkName_throw _ hT (by intro s hc; cases hc) errors] at h; cases h
    | bool b => rw [hs] at hT h; rw [checkName_throw _ hT (by intro s hc; cases hc) errors] at h; cases h
  · exact Or.inl (by simpa using hT)

theorem checkPhone_throw (v : JSVal) (hT : jsTruthy v = true)
    (hS : ∀ s, v ≠ .str s) (errors : List String) :
    checkPhone v errors = .error () := by
  cases v with
  | str s => exact absurd rfl (hS s)
  | undef => cases hT
  | null => cases hT
  | num n => simp [checkPhone, hT]
  | bool b => simp [checkPhone, hT]

theorem checkPhone_ok_strOk {v : JSVal} {errors l : List String}
    (h : checkPhone v errors = .ok l) : strOk v := by
  by_cases hT : jsTruthy v = true
  · cases hs : v with
    | str s => exact Or.inr ⟨s, rfl⟩
    | undef => rw [hs] at hT; cases hT
    | null => rw [hs] at hT; cases hT
    | num n => rw [hs] at hT h; rw [checkPhone_throw _ hT (by intro s hc; cases hc) errors] at h; cases h
    | bool b => rw [hs] at hT h; rw [checkPhone_throw _ hT (by intro s hc; cases hc) errors] at h; cases h
  · exact Or.inl (by simpa using hT)

theorem validate_ok_inv {r : Submission} {errs : List String}
    (h : validate r = .ok errs) :
    strOk r.name ∧ strOk r.phone ∧ errs = ruleErrors r := by
  have h1 : strOk r.name := by
    rcases hc : checkName r.name [] with e | l
    · rw [validate, hc] at h; cases h
    · exact checkName_ok_strOk hc
  have h2 : strOk r.phone := by
    rw [validate, checkName_eq r.name h1] at h
    simp only [Except.bind] at h
    rcases hc : checkPhone r.phone ([] ++ (if nameRuleFails r.name then ["name is required"] else [])) with e | l
    · rw [hc] at h; cases h
    · exact checkPhone_ok_strOk hc
  refine ⟨h1, h2, ?_⟩
  rw [validate_ok r h1 h2] at h
  exact (Except.ok.inj h).symm

/-- A submission with the four required fields given and every optional
field absent from the body. -/
def mkSub (n p e s : JSVal) : Submission :=
  ⟨n, p, e, s, .undef, .undef, .undef, .undef, .undef⟩

/-- The end-to-end example submission of the spec. -/
def subJane : Submission :=
  mkSub (.str ("Jane Doe")) (.str ("6124733196")) (.str ("jane@example.com")) (.str ("Driveway"))

/-- A configuration with every environment variable unset. -/
def cfgUnset : Config := ⟨none, none, none, none, none⟩

/-- A configuration with the CRM webhook, API key and form id set. -/
def cfgCRM : Config :=
  ⟨none, none, some ("https://crm.example.com/hook"), some ("key-123"), some ("form-77")⟩

/-- External outcomes in which every downstream call succeeds. -/
def worldAllOk : World :=
  ⟨.ok (some ("id-1")), .ok ⟨true, 200⟩, .ok (some ("id-2"))⟩

/-- External outcomes in which every downstream call fails. -/
def worldAllFail : World :=
  ⟨.error ("resend down"), .error ("network down"), .error ("resend down")⟩

/-- C1: for every valid submission and every combination of downstream
outcomes — in particular when any of the three external calls fails —
the handler still invokes all three senders and responds 200 with
success true, the fixed message, and a details triple equal to each
sender's boolean success outcome. -/
theorem c1_aggregate_no_short_circuit (cfg : Config) (r : Submission) (ts : String)
    (w : World) (h : validate r = .ok []) :
    handleQuote cfg r ts w =
      ⟨.accepted ("Quote request submitted successfully")
          ⟨(sendNotificationEmail cfg r ts w.notif).2.success,
           (pushToCRM cfg r ts w.crm).2.success,
           (sendConfirmationEmail cfg r.name r.email r.service w.conf).2.success⟩,
       [.notification, .crm, .confirmation]⟩
    ∧ statusCode (handleQuote cfg r ts w).response = 200
    ∧ responseSuccess (handleQuote cfg r ts w).response = true := by
  have hq : handleQuote cfg r ts w =
      ⟨.accepted ("Quote request submitted successfully")
          ⟨(sendNotificationEmail cfg r ts w.notif).2.success,
           (pushToCRM cfg r ts w.crm).2.success,
           (sendConfirmationEmail cfg r.name r.email r.service w.conf).2.success⟩,
       [.notification, .crm, .confirmation]⟩ := by
    simp [handleQuote, h]
  exact ⟨hq, by rw [hq]; rfl, by rw [hq]; rfl⟩

theorem c1_witness :
    handleQuote cfgUnset subJane ("2025-01-01T00:00:00.000Z") worldAllFail =
      ⟨.accepted ("Quote request submitted successfully")
          ⟨(sendNotificationEmail cfgUnset subJane ("2025-01-01T00:00:00.000Z") worldAllFail.notif).2.success,
           (pushToCRM cfgUnset subJane ("2025-01-01T00:00:00.000Z") worldAllFail.crm).2.success,
           (sendConfirmationEmail cfgUnset subJane.name subJane.email subJane.service worldAllFail.conf).2.success⟩,
       [.notification, .crm, .confirmation]⟩
    ∧ statusCode (handleQuote cfgUnset subJane ("2025-01-01T00:00:00.000Z") worldAllFail).response = 200
    ∧ responseSuccess (handleQuote cfgUnset subJane ("2025-01-01T00:00:00.000Z") worldAllFail).response = true :=
  c1_aggregate_no_short_circuit cfgUnset subJane ("2025-01-01T00:00:00.000Z") worldAllFail (by rfl)

/-- C2: whenever the validation block completes with a non-empty error
list, the handler responds 400 with success false and exactly that list,
and invokes none of the three senders. -/
theorem c2_validation_rejects (cfg : Config) (r : Submission) (ts : String) (w : World)
    (errs : List String) (h : validate r = .ok errs) (hne : errs ≠ []) :
    handleQuote cfg r ts w = ⟨.badRequest errs, []⟩
    ∧ statusCode (handleQuote cfg r ts w).response = 400
    ∧ responseSuccess (handleQuote cfg r ts w).response = false := by
  have hlen : 0 < errs.length := List.length_pos.mpr hne
  have hq : handleQuote cfg r ts w = ⟨.badRequest errs, []⟩ := by
    simp [handleQuote, h, hlen]
  exact ⟨hq, by rw [hq]; rfl, by rw [hq]; rfl⟩

theorem c2_witness :
    handleQuote cfgUnset
        (mkSub (.str ("Jane Doe")) (.str ("555-1234")) (.str ("jane@example.com")) (.str ("Driveway")))
        ("2025-01-01T00:00:00.000Z") worldAllOk =
      ⟨.badRequest (["valid phone is required"]), []⟩
    ∧ statusCode (handleQuote cfgUnset
        (mkSub (.str ("Jane Doe")) (.str ("555-1234")) (.str ("jane@example.com")) (.str ("Driveway")))
        ("2025-01-01T00:00:00.000Z") worldAllOk).response = 400
    ∧ responseSuccess (handleQuote cfgUnset
        (mkSub (.str ("Jane Doe")) (.str ("555-1234")) (.str ("jane@example.com")) (.str ("Driveway")))
        ("2025-01-01T00:00:00.000Z") worldAllOk).response = false :=
  c2_validation_rejects cfgUnset
    (mkSub (.str ("Jane Doe")) (.str ("555-1234")) (.str ("jane@example.com")) (.str ("Driveway")))
    ("2025-01-01T00:00:00.000Z") worldAllOk (["valid phone is required"]) (by rfl) (by decide)

/-- C3 counterexample: on the record whose name field is the JSON value
`true`, the validation block produces no error list at all — `name.trim`
is not a function, the TypeError escapes — so the Validator is not a
total, side-effect-free function from raw records to error lists. -/
theorem c3_counterexample :
    validate (mkSub (.bool true) (.str ("6124733196")) (.str ("jane@example.com")) (.str ("Driveway"))) = .error ()
    ∧ ∀ errs, validate (mkSub (.bool true) (.str ("6124733196")) (.str ("jane@example.com")) (.str ("Driveway"))) ≠ .ok errs := by
  refine ⟨rfl, ?_⟩
  intro errs h
  have h0 : validate (mkSub (.bool true) (.str ("6124733196")) (.str ("jane@example.com")) (.str ("Driveway"))) = .error () := rfl
  rw [h0] at h
  cases h

/-- C3 amended: for every record whose name and phone fields are each
falsy or strings, the Validator returns exactly one fixed message per
failing rule, in the fixed name, phone, email, service order (the empty
list when all pass); on a truthy non-string name or phone it instead
throws, and the request is answered by the generic 500 handler. -/
theorem c3_validator_amended (r : Submission) (h1 : strOk r.name) (h2 : strOk r.phone) :
    validate r =
      .ok ((if nameRuleFails r.name then ["name is required"] else [])
        ++ (if phoneRuleFails r.phone then ["valid phone is required"] else [])
        ++ (if emailRuleFails r.email then ["valid email is required"] else [])
        ++ (if serviceRuleFails r.service then ["service is required"] else [])) :=
  validate_ok r h1 h2

theorem c3_witness :
    validate (mkSub (.str ("X")) (.str ("555-1234")) (.undef) (.str (""))) =
      .ok (["name is required", "valid phone is required", "valid email is required", "service is required"]) :=
  c3_validator_amended (mkSub (.str ("X")) (.str ("555-1234")) (.undef) (.str ("")))
    (Or.inr ⟨"X", rfl⟩) (Or.inr ⟨"555-1234", rfl⟩)

/-- C4 counterexample: on the record whose name field is the JSON number
`1` — a value that is not a string — the Validator does not produce any
error list containing "name is required"; the check throws instead. -/
theorem c4_counterexample :
    validate (mkSub (.num 1) (.str ("6124733196")) (.str ("jane@example.com")) (.str ("Driveway"))) = .error ()
    ∧ ¬ ∃ errs, validate (mkSub (.num 1) (.str ("6124733196")) (.str ("jane@example.com")) (.str ("Driveway"))) = .ok errs
        ∧ ("name is required") ∈ errs := by
  refine ⟨rfl, ?_⟩
  rintro ⟨errs, h, -⟩
  have h0 : validate (mkSub (.num 1) (.str ("6124733196")) (.str ("jane@example.com")) (.str ("Driveway"))) = .error () := rfl
  rw [h0] at h
  cases h

/-- C4 amended: whenever the validation block completes with an error
list, a name that is falsy (absent, null, empty, zero or false) or a
string of trimmed length below 2 contributes "name is required"; a name
that is truthy but not a string instead makes the block throw, so the
request ends at the 500 handler with no error list. -/
theorem c4_name_rule_amended :
    (∀ (r : Submission) (errs : List String), validate r = .ok errs →
      (jsTruthy r.name = false ∨ ∃ s, r.name = .str s ∧ (jsTrim s).length < 2) →
      ("name is required") ∈ errs)
    ∧ (∀ r : Submission, jsTruthy r.name = true → (∀ s, r.name ≠ .str s) →
        validate r = .error ()) := by
  constructor
  · intro r errs h hf
    obtain ⟨h1, h2, herrs⟩ := validate_ok_inv h
    subst herrs
    have hN : nameRuleFails r.name = true := by
      rcases hf with hf | ⟨s, hs, hlt⟩
      · exact nameRuleFails_of_falsy hf
      · rw [hs]; simpa [nameRuleFails] using hlt
    simp [ruleErrors, hN]
  · intro r hT hS
    rw [validate, checkName_throw r.name hT hS]
    rfl

theorem c4_witness :
    validate (mkSub (.undef) (.str ("6124733196")) (.str ("jane@example.com")) (.str ("Driveway"))) =
      .ok (["name is required"])
    ∧ ("name is required") ∈ (["name is required"] : List String) :=
  ⟨rfl,
   c4_name_rule_amended.1
     (mkSub (.undef) (.str ("6124733196")) (.str ("jane@example.com")) (.str ("Driveway")))
     (["name is required"]) (by rfl) (Or.inl rfl)⟩

/-- C5: whenever the validation block completes with an error list, an
absent phone or a string phone whose digit-only form has fewer than 10
digits contributes "valid phone is required"; concretely, the submission
with phone "555-1234" (7 digits) fails exactly the phone rule, and the
one with "(612) 473-3196" (10 digits) passes validation outright. -/
theorem c5_phone_rule :
    (∀ (r : Submission) (errs : List String), validate r = .ok errs →
      (r.phone = .undef ∨ ∃ s, r.phone = .str s ∧ (stripNonDigits s).length < 10) →
      ("valid phone is required") ∈ errs)
    ∧ validate (mkSub (.str ("Jane Doe")) (.str ("555-1234")) (.str ("jane@example.com")) (.str ("Driveway")))
        = .ok (["valid phone is required"])
    ∧ validate (mkSub (.str ("Jane Doe")) (.str ("(612) 473-3196")) (.str ("jane@example.com")) (.str ("Driveway")))
        = .ok ([]) := by
  refine ⟨?_, rfl, rfl⟩
  intro r errs h hf
  obtain ⟨h1, h2, herrs⟩ := validate_ok_inv h
  subst herrs
  have hP : phoneRuleFails r.phone = true := by
    rcases hf with hf | ⟨s, hs, hlt⟩
    · rw [hf]; rfl
    · rw [hs]; simpa [phoneRuleFails] using hlt
  simp [ruleErrors, hP]

theorem c5_witness :
    validate (mkSub (.str ("Jane Doe")) (.undef) (.str ("jane@example.com")) (.str ("Driveway"))) =
      .ok (["valid phone is required"])
    ∧ ("valid phone is required") ∈ (["valid phone is required"] : List String) :=
  ⟨rfl,
   c5_phone_rule.1
     (mkSub (.str ("Jane Doe")) (.undef) (.str ("jane@example.com")) (.str ("Driveway")))
     (["valid phone is required"]) (by rfl) (Or.inl rfl)⟩

/-- C6: whenever the validation block completes with an error list, an
absent email or one whose string form fails the `x@y.z` regex
contributes "valid email is required"; concretely the embedded regex
accepts "a@b.com" and rejects "a@b" and "a.com". -/
theorem c6_email_rule :
    (∀ (r : Submission) (errs : List String), validate r = .ok errs →
      (r.email = .undef ∨ emailRegexTest (jsToString r.email) = false) →
      ("valid email is required") ∈ errs)
    ∧ emailRegexTest ("a@b.com") = true
    ∧ emailRegexTest ("a@b") = false
    ∧ emailRegexTest ("a.com") = false := by
  refine ⟨?_, rfl, rfl, rfl⟩
  intro r errs h hf
  obtain ⟨h1, h2, herrs⟩ := validate_ok_inv h
  subst herrs
  have hE : emailRuleFails r.email = true := by
    rcases hf with hf | hf
    · rw [hf]; rfl
    · simp [emailRuleFails, hf]
  simp [ruleErrors, hE]

theorem c6_witness :
    validate (mkSub (.str ("Jane Doe")) (.str ("6124733196")) (.str ("a@b")) (.str ("Driveway"))) =
      .ok (["valid email is required"])
    ∧ ("valid email is required") ∈ (["valid email is required"] : List String) :=
  ⟨rfl,
   c6_email_rule.1
     (mkSub (.str ("Jane Doe")) (.str ("6124733196")) (.str ("a@b")) (.str ("Driveway")))
     (["valid email is required"]) (by rfl) (Or.inr (by rfl))⟩

/-- C7: with no CRM webhook URL configured, pushToCRM issues no HTTP
request and returns failure with the configuration-missing reason, and a
valid submission still receives a 200 response whose crm_pushed detail
is false. -/
theorem c7_crm_unconfigured (cfg : Config) (r : Submission) (ts : String) (w : World)
    (hurl : envTruthy cfg.crmWebhookUrl = false) (hv : validate r = .ok []) :
    pushToCRM cfg r ts w.crm =
      (none, ⟨false, none, some ("CRM_WEBHOOK_URL not configured")⟩)
    ∧ (handleQuote cfg r ts w).response =
        .accepted ("Quote request submitted successfully")
          ⟨(sendNotificationEmail cfg r ts w.notif).2.success, false,
           (sendConfirmationEmail cfg r.name r.email r.service w.conf).2.success⟩
    ∧ statusCode (handleQuote cfg r ts w).response = 200 := by
  have hp : pushToCRM cfg r ts w.crm =
      (none, ⟨false, none, some ("CRM_WEBHOOK_URL not configured")⟩) := by
    simp [pushToCRM, hurl]
  refine ⟨hp, ?_, ?_⟩
  · simp [handleQuote, hv, hp]
  · simp [handleQuote, hv, statusCode]

theorem c7_witness :
    pushToCRM cfgUnset subJane ("2025-01-01T00:00:00.000Z") worldAllOk.crm =
      (none, ⟨false, none, some ("CRM_WEBHOOK_URL not configured")⟩)
    ∧ (handleQuote cfgUnset subJane ("2025-01-01T00:00:00.000Z") worldAllOk).response =
        .accepted ("Quote request submitted successfully")
          ⟨(sendNotificationEmail cfgUnset subJane ("2025-01-01T00:00:00.000Z") worldAllOk.notif).2.success, false,
           (sendConfirmationEmail cfgUnset subJane.name subJane.email subJane.service worldAllOk.conf).2.success⟩
    ∧ statusCode (handleQuote cfgUnset subJane ("2025-01-01T00:00:00.000Z") worldAllOk).response = 200 :=
  c7_crm_unconfigured cfgUnset subJane ("2025-01-01T00:00:00.000Z") worldAllOk (by rfl) (by rfl)

/-- C8: with a webhook URL configured, pushToCRM issues a POST to that
URL whose flat payload carries the configured (or default) form id, the
literal source tag "website", the submission fields with zipcode sent as
zip_code (and no zipcode key), the timestamp as submitted_at and the
fixed source URL; the headers always include Content-Type:
application/json and include X-API-Key exactly when the CRM API key is
configured. -/
theorem c8_crm_request_shape (cfg : Config) (r : Submission) (ts : String)
    (resp : Except String HttpResponse) (hurl : envTruthy cfg.crmWebhookUrl = true) :
    (pushToCRM cfg r ts resp).1 =
      some ⟨Option.getD cfg.crmWebhookUrl (""), "POST", crmHeaders cfg, crmPayload cfg r ts⟩
    ∧ (crmPayload cfg r ts).lookup ("form_id") = some (.str (envOr cfg.crmFormId ("hopkins-concrete-quote")))
    ∧ (crmPayload cfg r ts).lookup ("source") = some (.str ("website"))
    ∧ (crmPayload cfg r ts).lookup ("name") = some r.name
    ∧ (crmPayload cfg r ts).lookup ("email") = some r.email
    ∧ (crmPayload cfg r ts).lookup ("phone") = some r.phone
    ∧ (crmPayload cfg r ts).lookup ("zip_code") = some (jsOr r.zipcode (.str ("")))
    ∧ (crmPayload cfg r ts).lookup ("zipcode") = none
    ∧ (crmPayload cfg r ts).lookup ("service") = some r.service
    ∧ (crmPayload cfg r ts).lookup ("address") = some (jsOr r.address (.str ("")))
    ∧ (crmPayload cfg r ts).lookup ("timeline") = some (jsOr r.timeline (.str ("")))
    ∧ (crmPayload cfg r ts).lookup ("budget") = some (jsOr r.budget (.str ("")))
    ∧ (crmPayload cfg r ts).lookup ("message") = some (jsOr r.message (.str ("")))
    ∧ (crmPayload cfg r ts).lookup ("submitted_at") = some (.str ts)
    ∧ (crmPayload cfg r ts).lookup ("source_url") = some (.str ("https://hopkinsconcretecontractors.com/contact-2/"))
    ∧ ("Content-Type", "application/json") ∈ crmHeaders cfg
    ∧ ((∃ k, ("X-API-Key", k) ∈ crmHeaders cfg) ↔ envTruthy cfg.crmApiKey = true) := by
  refine ⟨?_, rfl, rfl, rfl, rfl, rfl, rfl, rfl, rfl, rfl, rfl, rfl, rfl, rfl, rfl, ?_, ?_⟩
  · cases resp <;> simp [pushToCRM, hurl]
  · simp [crmHeaders]
  · by_cases hk : envTruthy cfg.crmApiKey = true
    · simp only [hk, iff_true]
      exact ⟨Option.getD cfg.crmApiKey (""), by simp [crmHeaders, hk]⟩
    · have hk0 : envTruthy cfg.crmApiKey = false := by simpa using hk
      simp [crmHeaders, hk0]

theorem c8_witness :
    (pushToCRM cfgCRM subJane ("2025-01-01T00:00:00.000Z") (Except.ok ⟨true, 200⟩)).1 =
      some ⟨Option.getD cfgCRM.crmWebhookUrl (""), "POST", crmHeaders cfgCRM,
            crmPayload cfgCRM subJane ("2025-01-01T00:00:00.000Z")⟩
    ∧ ((∃ k, ("X-API-Key", k) ∈ crmHeaders cfgCRM) ↔ envTruthy cfgCRM.crmApiKey = true) :=
  ⟨(c8_crm_request_shape cfgCRM subJane ("2025-01-01T00:00:00.000Z") (Except.ok ⟨true, 200⟩) (by rfl)).1,
   (c8_crm_request_shape cfgCRM subJane ("2025-01-01T00:00:00.000Z") (Except.ok ⟨true, 200⟩) (by rfl)).2.2.2.2.2.2.2.2.2.2.2.2.2.2.2.2⟩

/-- C9: a submission whose four required fields each pass their check and
whose optional fields are all absent passes validation with no errors,
and its notification email body renders "Not provided" in the address
and zip code slots, "Not specified" in the timeline and budget slots and
"No message provided" in the message slot. -/
theorem c9_placeholders (n p e s ts : String)
    (h1 : checkName (.str n) [] = .ok [])
    (h2 : checkPhone (.str p) [] = .ok [])
    (h3 : checkEmail (.str e) [] = [])
    (h4 : checkService (.str s) [] = []) :
    validate (mkSub (.str n) (.str p) (.str e) (.str s)) = .ok []
    ∧ notificationHtml (mkSub (.str n) (.str p) (.str e) (.str s)) ts =
        htmlTemplate n p e s ("Not provided") ("Not provided") ("Not specified")
          ("Not specified") ("No message provided") ts := by
  refine ⟨?_, rfl⟩
  show (checkName (.str n) []).bind _ = _
  rw [h1]
  show (checkPhone (.str p) []).bind _ = _
  rw [h2]
  show Except.ok (checkService (.str s) (checkEmail (.str e) [])) = _
  rw [h3, h4]

theorem c9_witness :
    validate (mkSub (.str ("Jane Doe")) (.str ("6124733196")) (.str ("jane@example.com")) (.str ("Driveway"))) = .ok []
    ∧ notificationHtml
        (mkSub (.str ("Jane Doe")) (.str ("6124733196")) (.str ("jane@example.com")) (.str ("Driveway")))
        ("2025-01-01T00:00:00.000Z") =
      htmlTemplate ("Jane Doe") ("6124733196") ("jane@example.com") ("Driveway")
        ("Not provided") ("Not provided") ("Not specified") ("Not specified")
        ("No message provided") ("2025-01-01T00:00:00.000Z") :=
  c9_placeholders ("Jane Doe") ("6124733196") ("jane@example.com") ("Driveway")
    ("2025-01-01T00:00:00.000Z") (by rfl) (by rfl) (by rfl) (by rfl)

/-- C10: supplying any one of the five optional fields as the empty
string produces exactly the notification email body and CRM payload that
omitting it produces — the empty string falls through `||` to the
display placeholder in the email and to the empty-string default in the
payload. -/
theorem c10_empty_string_optionals (cfg : Config) (r : Submission) (ts : String) :
    (notificationHtml {r with address := .str ("")} ts = notificationHtml {r with address := .undef} ts
      ∧ crmPayload cfg {r with address := .str ("")} ts = crmPayload cfg {r with address := .undef} ts)
    ∧ (notificationHtml {r with zipcode := .str ("")} ts = notificationHtml {r with zipcode := .undef} ts
      ∧ crmPayload cfg {r with zipcode := .str ("")} ts = crmPayload cfg {r with zipcode := .undef} ts)
    ∧ (notificationHtml {r with timeline := .str ("")} ts = notificationHtml {r with timeline := .undef} ts
      ∧ crmPayload cfg {r with timeline := .str ("")} ts = crmPayload cfg {r with timeline := .undef} ts)
    ∧ (notificationHtml {r with budget := .str ("")} ts = notificationHtml {r with budget := .undef} ts
      ∧ crmPayload cfg {r with budget := .str ("")} ts = crmPayload cfg {r with budget := .undef} ts)
    ∧ (notificationHtml {r with message := .str ("")} ts = notificationHtml {r with message := .undef} ts
      ∧ crmPayload cfg {r with message := .str ("")} ts = crmPayload cfg {r with message := .undef} ts) :=
  ⟨⟨rfl, rfl⟩, ⟨rfl, rfl⟩, ⟨rfl, rfl⟩, ⟨rfl, rfl⟩, ⟨rfl, rfl⟩⟩
